import Mathlib

/-! Verification of the tgCli GSQL session core.

Shallow embedding of the GSQL session negotiator and streaming command
executor of `zrougamed/tgCli` (Go).  The embedded code lives in
`src/unnamed/part_005` (package `server`), `src/internal/models/models.go`
(the `GSQLCookie` struct) and `src/unnamed/part_006` (package `constants`).

Modelling conventions:
* Go strings are Lean `String`s; `strings.Contains`, `strings.Split`,
  `strings.HasSuffix`, `strings.TrimSpace` are given executable Lean
  counterparts below.
* The HTTP transport is a parameter: the negotiator's server is a function
  from the request's observable content (user, password, cookie header) to
  a reply; the executor's response body is a list of `Read` call results.
* `encoding/json` is external library code.  Decoding a `GSQLCookie` from a
  raw string (`json.Unmarshal`) is abstracted as a parameter
  `decode : String → Option GSQLCookie` (`none` = parse error), and the
  struct-level marshalling of `GSQLCookie` (with its `omitempty` tags) is
  modelled at the JSON-object level by `marshalGSQLCookie` /
  `unmarshalGSQLCookie`.
* Go map iteration order is not specified by the language, so `login`,
  which ranges over the map `versionCommits`, takes the iteration order as
  a parameter; a legal execution is any permutation of the table.
-/

namespace TgCli

/-- The `GSQLCookie` struct of `src/internal/models/models.go`.  The two
affinity fields are Go strings whose zero value `""` stands for "absent"
(they carry the `omitempty` JSON tag). -/
structure GSQLCookie where
  clientCommit : String
  fromGsqlClient : Bool
  fromGraphStudio : Bool
  gShellTest : Bool
  fromGsqlServer : Bool
  applicationGatewayAffinity : String
  applicationGatewayAffinityCORS : String
deriving DecidableEq

/-- Constant `constants.GSQL_SEPARATOR` from `src/unnamed/part_006`. -/
def gsqlSeparator : String := "__GSQL__"

/-- Constant `constants.GSQL_COOKIES` from `src/unnamed/part_006`. -/
def gsqlCookies : String := "__GSQL__COOKIES__"

/-- Scan of Go `strings.Split` for a non-empty separator: cut whenever
`sep` is a prefix of the remaining characters, otherwise shift one
character into the accumulator.  The `fuel` argument, instantiated with
the string's length, only makes the recursion structural; it never runs
out because every step consumes at least one character. -/
def splitGoAux (sep : List Char) : Nat → List Char → List Char → List (List Char)
  | _, [], acc => [acc.reverse]
  | 0, cs, acc => [acc.reverse ++ cs]
  | fuel + 1, c :: cs, acc =>
    if sep.isPrefixOf (c :: cs) then
      acc.reverse :: splitGoAux sep fuel ((c :: cs).drop sep.length) []
    else
      splitGoAux sep fuel cs (c :: acc)

/-- Go `strings.Split s sep` for a non-empty `sep` (every use in the
embedded code passes a non-empty literal). -/
def splitGo (s sep : String) : List String :=
  (splitGoAux sep.toList s.toList.length s.toList []).map String.mk

/-- Go `strings.Contains s sub` for a non-empty `sub`: `sub` occurs in `s`
iff splitting on it yields more than one piece. -/
def containsSubstr (s sub : String) : Bool := (splitGo s sub).length > 1

/-- Go `strings.HasSuffix`. -/
def hasSuffixGo (s suffix : String) : Bool := suffix.toList.isSuffixOf s.toList

/-- Go `unicode.IsSpace` restricted to the Latin-1 range (space, TAB, LF,
VT, FF, CR, NEL, NBSP).  The further Unicode space code points accepted by
Go cannot occur in any string the embedded code handles here. -/
def isGoSpace (c : Char) : Bool :=
  c == ' ' || c == '\t' || c == '\n' || c.val == 0x0b || c.val == 0x0c ||
  c == '\r' || c.val == 0x85 || c.val == 0xa0

/-- Go `strings.TrimSpace`: drop leading and trailing white space. -/
def trimSpace (s : String) : String :=
  String.mk (((s.toList.dropWhile isGoSpace).reverse.dropWhile isGoSpace).reverse)

/-! Section: the progress-indicator regular expression.

`executeCommand` compiles `\[.*?\]\s*([0-9]\d*|0)+%.*\(([1-9]\d*|0)\/([1-9]\d*|0)\)`
and asks whether a chunk *contains* a match (`MatchString`).  RE2 `.`
matches any character except newline; `\s` is `[\t\n\f\r ]`;
`([0-9]\d*|0)+` recognises exactly the non-empty digit strings.  The
matcher below enumerates, for each sub-pattern, every remainder it can
leave, so "some match exists" is decided exactly. -/

/-- RE2 `\s` (Perl whitespace class): `[\t\n\f\r ]`. -/
def isRegexSpace (c : Char) : Bool :=
  c == '\t' || c == '\n' || c.val == 0x0c || c == '\r' || c == ' '

/-- All remainders after consuming a (possibly empty) prefix of characters
satisfying `p` — the remainder set of `p*`. -/
def starRem (p : Char → Bool) : List Char → List (List Char)
  | [] => [[]]
  | c :: cs => (c :: cs) :: (if p c then starRem p cs else [])

/-- All remainders after consuming a non-empty prefix of characters
satisfying `p` — the remainder set of `p+`. -/
def plusRem (p : Char → Bool) : List Char → List (List Char)
  | [] => []
  | c :: cs => if p c then starRem p cs else []

/-- Remainder set of `([1-9]\d*|0)`: a single `0`, or a digit string not
starting with `0`. -/
def numRem : List Char → List (List Char)
  | [] => []
  | c :: cs =>
    if c == '0' then [cs]
    else if c.isDigit then starRem Char.isDigit cs
    else []

/-- Does `\(([1-9]\d*|0)\/([1-9]\d*|0)\)` match a prefix of `cs`? -/
def fracHere (cs : List Char) : Bool :=
  match cs with
  | '(' :: cs1 =>
    (numRem cs1).any fun cs2 =>
      match cs2 with
      | '/' :: cs3 =>
        (numRem cs3).any fun cs4 =>
          match cs4 with
          | ')' :: _ => true
          | _ => false
      | _ => false
  | _ => false

/-- Does the whole progress pattern match a prefix of `cs`? -/
def progressHere (cs : List Char) : Bool :=
  match cs with
  | '[' :: cs1 =>
    (starRem (fun c => !(c == '\n')) cs1).any fun cs2 =>
      match cs2 with
      | ']' :: cs3 =>
        (starRem isRegexSpace cs3).any fun cs4 =>
          (plusRem Char.isDigit cs4).any fun cs5 =>
            match cs5 with
            | '%' :: cs6 => (starRem (fun c => !(c == '\n')) cs6).any fracHere
            | _ => false
      | _ => false
  | _ => false

/-- Function `progressRegex.MatchString data`: the pattern matches starting at some
position of the chunk. -/
def progressMatch (s : String) : Bool := s.toList.tails.any progressHere

/-! Section: the streaming command executor, `GSQLSession.executeCommand`. -/

/-- The `GSQLSession` struct of `src/unnamed/part_005` (the `http.Client`
transport handle is abstracted into the server/transport parameters of the
operations). -/
structure GSQLSession where
  host : String
  user : String
  password : String
  version : String
  cookie : GSQLCookie
deriving DecidableEq

/-- Processing of one chunk `data` of the response body inside
`executeCommand`'s read loop: returns the session cookie after the chunk
and the text the chunk writes to the terminal.  `decode` stands for
`json.Unmarshal` into a `GSQLCookie` (`none` = error).  Mirrors
`src/unnamed/part_005` lines 227-252:
* no `__GSQL__` separator: a progress-matching chunk is printed verbatim;
  any other chunk is printed as `TrimSpace(data)`, followed by a newline
  only when the raw `data` does not already end in `"\n"`;
* separator present with the `__GSQL__COOKIES__` marker: split on `"__,"`,
  decode the second piece, force the four provenance flags, and replace
  the cookie; nothing is printed;
* separator present without the marker: nothing happens. -/
def processChunk (decode : String → Option GSQLCookie) (cookie : GSQLCookie)
    (data : String) : GSQLCookie × String :=
  if !containsSubstr data gsqlSeparator then
    if progressMatch data then
      (cookie, data)
    else
      (cookie, trimSpace data ++ (if hasSuffixGo data "\n" then "" else "\n"))
  else if containsSubstr data gsqlCookies then
    let parts := splitGo data "__,"
    if parts.length > 1 then
      match decode parts[1]! with
      | some c =>
        ({ c with fromGsqlClient := true, fromGraphStudio := false,
                  gShellTest := true, fromGsqlServer := true }, "")
      | none => (cookie, "")
    else (cookie, "")
  else (cookie, "")

/-- Outcome of one `resp.Body.Read(buffer)` call: the bytes delivered
(`""` when `n = 0`) and the error value (`none` = `nil`).  A Go `Read` may
deliver bytes and an error in the same call. -/
structure ReadRes where
  data : String
  err : Option String
deriving DecidableEq

/-- The read loop of `executeCommand`: process each delivered chunk, stop
after the first read result whose error is non-nil (chunks after it are
never read).  Returns the final cookie and the concatenated terminal
output. -/
def runReadLoop (decode : String → Option GSQLCookie) (cookie : GSQLCookie) :
    List ReadRes → GSQLCookie × String
  | [] => (cookie, "")
  | r :: rest =>
    let step := if r.data == "" then (cookie, "") else processChunk decode cookie r.data
    match r.err with
    | some _ => step
    | none =>
      let tail := runReadLoop decode step.1 rest
      (tail.1, step.2 ++ tail.2)

/-- Method `GSQLSession.executeCommand` (`src/unnamed/part_005` lines 196-261).
`transport` is the HTTP layer's answer to the POST of `command`: either a
transport error (`s.Client.Do` failed) or the response body as a sequence
of `Read` results.  Returns the session after the call, the terminal
output, and the function's return value — note the Go code returns `nil`
after the read loop no matter how the loop ended. -/
def executeCommand (decode : String → Option GSQLCookie)
    (transport : Except String (List ReadRes))
    (s : GSQLSession) (command : String) : GSQLSession × String × Except String Unit :=
  match transport with
  | .error e => (s, "", .error e)
  | .ok body =>
    let res := runReadLoop decode s.cookie body
    ({ s with cookie := res.1 }, res.2, .ok ())

/-! Section: the session negotiator, `GSQLSession.login` and `attemptLogin`. -/

/-- The version → client-commit fingerprint table (`versionCommits`,
`src/unnamed/part_005` lines 22-40), listed in the textual order of the Go
map literal.  Go gives map literals no order semantics: iterating the map
visits each entry exactly once in an unspecified order, so a legal
iteration order is any permutation of this list. -/
def versionCommits : List (String × String) :=
  [("3.6.2", "31716aa98a0d4bd3bd7c5488dfc795a82dfee80d"),
   ("3.6.1", "b77b8fc6c2ceadd457571fc0a6ce1fb243e5f31c"),
   ("3.6.0", "b77b8fc6c2ceadd457571fc0a6ce1fb243e5f31c"),
   ("3.5.3", "7edb256d9750ab4451d27eef605e58e9adcedc7a"),
   ("3.5.0", "375e661f96298db4df018037949827e16ee8df60"),
   ("3.4.0", "421b0740e4a9f61d6eb0e03a4d2079de625a3ffe"),
   ("3.3.0", "90cc0512851acca2be10044878815bc414876f23"),
   ("3.2.2", "a31220261f440f61ebf3edfb1a84efba62939177"),
   ("3.2.1", "986e09c5d17d303659bed1342506a1c458462e30"),
   ("3.2.0", "f451d8a9a66c7ca0d8d4d9046f440f21097cdd03"),
   ("3.1.6", "71b39b25e198f690e28113e7f8874dab7b4559ec"),
   ("3.1.5", "f91c690f375ecd4d600eb126ca5a920a5c9ad0f4"),
   ("3.1.2", "3887cbd1d67b58ba6f88c50a069b679e20743984"),
   ("3.1.1", "375a182bc03b0c78b489e18a0d6af222916a48d2"),
   ("3.1.0", "e9d3c5d98e7229118309f6d4bbc9446bad7c4c3d"),
   ("3.0.5", "a9f902e5c552780589a15ba458adb48984359165"),
   ("3.0.0", "c90ec746a7e77ef5b108554be2133dfd1e1ab1b2")]

/-- The handshake cookie `login` seeds before each attempt
(`src/unnamed/part_005` lines 94-100): the entry's commit, default
provenance flags, Go zero values for the affinity fields. -/
def seedCookie (commit : String) : GSQLCookie :=
  { clientCommit := commit, fromGsqlClient := false, fromGraphStudio := false,
    gShellTest := true, fromGsqlServer := false,
    applicationGatewayAffinity := "", applicationGatewayAffinityCORS := "" }

/-- The parsed negotiation-response JSON (`loginResp` struct inside
`attemptLogin`). -/
structure LoginResp where
  isClientCompatible : Bool
  error : Bool
  message : String
  welcomeMessage : String
deriving DecidableEq

/-- What the HTTP layer hands `attemptLogin` back: `failBefore` covers a
failed `s.Client.Do`, a failed `io.ReadAll`, and a body that
`json.Unmarshal` rejects — all three `return err` before any response field
is inspected.  `reply` carries the parsed body and the `Set-Cookie`
response header (`""` = header absent, as `Header.Get` returns). -/
inductive ServerReply where
  | failBefore (e : String)
  | reply (r : LoginResp) (setCookie : String)
deriving DecidableEq

/-- A negotiation server: a function of the request's observable content —
the user, the password (they form the body and Basic-auth header) and the
`Cookie` header's artifact. -/
def NegotiationServer : Type := String → String → GSQLCookie → ServerReply

/-- Method `GSQLSession.attemptLogin` (`src/unnamed/part_005` lines 110-167) for
one `version`.  Returns the session after the call, the printed output and
the return value:
* any pre-parse failure is returned as-is;
* a compatible reply with `error` set and a user other than
  `"__GSQL__secret"` fails with the server's message;
* an accepted reply replaces the session cookie with the decoded
  `Set-Cookie` value when that header is present and decodes (verbatim —
  no post-processing of its flags), prints the welcome message and
  succeeds;
* an incompatible reply fails with the version-specific message. -/
def attemptLogin (decode : String → Option GSQLCookie) (server : NegotiationServer)
    (s : GSQLSession) (version : String) : GSQLSession × String × Except String Unit :=
  match server s.user s.password s.cookie with
  | .failBefore e => (s, "", .error e)
  | .reply r setCookie =>
    if r.isClientCompatible then
      if r.error && !(s.user == "__GSQL__secret") then
        (s, "", .error r.message)
      else
        let s1 :=
          if setCookie == "" then s
          else
            match decode setCookie with
            | some c => { s with cookie := c }
            | none => s
        (s1, r.welcomeMessage ++ "\n", .ok ())
    else
      (s, "", .error ("client not compatible with version " ++ version))

/-- Method `GSQLSession.login` (`src/unnamed/part_005` lines 92-108), with the Go
map iteration materialised as the parameter `order` (any permutation of
`versionCommits`).  For each `(version, commit)` in `order` the session
cookie is overwritten with the seed for `commit` and `attemptLogin` is
run; on success the version is recorded and the loop stops, on failure the
error is discarded and the next entry is tried; an exhausted loop fails
with the generic message.  Besides the final session and result it returns
the list of versions attempted, the observable trace of HTTP calls. -/
def login (decode : String → Option GSQLCookie) (server : NegotiationServer) :
    List (String × String) → GSQLSession → GSQLSession × List String × Except String Unit
  | [], s => (s, [], .error "unable to establish compatible connection")
  | (version, commit) :: rest, s =>
    let s1 := { s with cookie := seedCookie commit }
    let att := attemptLogin decode server s1 version
    match att.2.2 with
    | .ok _ => ({ att.1 with version := version }, [version], .ok ())
    | .error _ =>
      let tail := login decode server rest att.1
      (tail.1, version :: tail.2.1, tail.2.2)

/-- Does `attemptLogin` accept this reply for this user?  (Used to state
"the server rejects every version".) -/
def replyAccepts (user : String) : ServerReply → Bool
  | .failBefore _ => false
  | .reply r _ => r.isClientCompatible && (!r.error || user == "__GSQL__secret")

/-! Section: the interactive loop, `GSQLSession.startInteractiveSession`. -/

/-- What the loop does with one line of input. -/
inductive LoopAction where
  | terminate
  | reprompt
  | forward (cmd : String)
deriving DecidableEq

/-- The per-line decision of `startInteractiveSession`
(`src/unnamed/part_005` lines 180-193): trim the line; exactly `"Quit"`,
`"quit"` or `"exit"` end the loop; an empty result re-prompts; anything
else is forwarded to `executeCommand`. -/
def handleLine (line : String) : LoopAction :=
  let command := trimSpace line
  if command == "Quit" || command == "quit" || command == "exit" then .terminate
  else if command == "" then .reprompt
  else .forward command

/-- The interactive loop over a list of input lines: returns the commands
forwarded to the executor, in order.  `exec`'s result is only printed
(`fmt.Printf`) — the loop continues regardless, which is why the
recursion ignores it. -/
def runInteractive (exec : String → Except String Unit) : List String → List String
  | [] => []
  | line :: rest =>
    match handleLine line with
    | .terminate => []
    | .reprompt => runInteractive exec rest
    | .forward cmd => cmd :: runInteractive exec rest

/-! Section: JSON marshalling of `GSQLCookie`.

Modelled from Go `encoding/json` applied to the struct tags of
`src/internal/models/models.go`: marshalling emits the five mandatory
fields under their tag names and each affinity field only when non-empty
(`omitempty`); unmarshalling reads each tag name from the object, leaving
the Go zero value when the key is absent or has the wrong shape. -/

/-- A JSON value as far as `GSQLCookie`'s fields need: a string or a
boolean. -/
inductive JVal where
  | jstr (s : String)
  | jbool (b : Bool)
deriving DecidableEq

/-- Go `json.Marshal` of a `GSQLCookie`: the resulting JSON object as its
ordered field list. -/
def marshalGSQLCookie (c : GSQLCookie) : List (String × JVal) :=
  [("clientCommit", .jstr c.clientCommit),
   ("fromGsqlClient", .jbool c.fromGsqlClient),
   ("fromGraphStudio", .jbool c.fromGraphStudio),
   ("gShellTest", .jbool c.gShellTest),
   ("fromGsqlServer", .jbool c.fromGsqlServer)] ++
  (if c.applicationGatewayAffinity == "" then []
   else [("ApplicationGatewayAffinity", .jstr c.applicationGatewayAffinity)]) ++
  (if c.applicationGatewayAffinityCORS == "" then []
   else [("ApplicationGatewayAffinityCORS", .jstr c.applicationGatewayAffinityCORS)])

/-- Read a string field, Go zero value `""` when absent. -/
def lookupStr (fields : List (String × JVal)) (key : String) : String :=
  match fields.lookup key with
  | some (.jstr s) => s
  | _ => ""

/-- Read a boolean field, Go zero value `false` when absent. -/
def lookupBool (fields : List (String × JVal)) (key : String) : Bool :=
  match fields.lookup key with
  | some (.jbool b) => b
  | _ => false

/-- Go `json.Unmarshal` of a JSON object into a `GSQLCookie`. -/
def unmarshalGSQLCookie (fields : List (String × JVal)) : GSQLCookie :=
  { clientCommit := lookupStr fields "clientCommit",
    fromGsqlClient := lookupBool fields "fromGsqlClient",
    fromGraphStudio := lookupBool fields "fromGraphStudio",
    gShellTest := lookupBool fields "gShellTest",
    fromGsqlServer := lookupBool fields "fromGsqlServer",
    applicationGatewayAffinity := lookupStr fields "ApplicationGatewayAffinity",
    applicationGatewayAffinityCORS := lookupStr fields "ApplicationGatewayAffinityCORS" }

/-! Section: derived notions used only to state properties. -/

/-- The provenance post-processing step the executor applies after decoding
a server-supplied artifact (`src/unnamed/part_005` lines 244-247). -/
def reassertFlags (c : GSQLCookie) : GSQLCookie :=
  { c with fromGsqlClient := true, fromGraphStudio := false,
           gShellTest := true, fromGsqlServer := true }

/-! Section: concrete fixtures for witnesses and counterexamples. -/

/-- A server-issued artifact whose provenance flags all differ from the
values the executor forces. -/
def cookieX : GSQLCookie :=
  { clientCommit := "x", fromGsqlClient := false, fromGraphStudio := true,
    gShellTest := false, fromGsqlServer := false,
    applicationGatewayAffinity := "a", applicationGatewayAffinityCORS := "b" }

/-- A concrete stand-in for `json.Unmarshal`: the payloads `"P"` and
`"SC"` decode to `cookieX`, everything else is a parse error. -/
def dec0 : String → Option GSQLCookie := fun s =>
  if s == "P" || s == "SC" then some cookieX else none

/-- A session cookie distinct from every table seed. -/
def cookieOrig : GSQLCookie := seedCookie "orig"

/-- A concrete session state before negotiation. -/
def sess0 : GSQLSession :=
  { host := "example.com:14240", user := "u", password := "p",
    version := "", cookie := cookieOrig }

/-- A server that answers every negotiation request as incompatible. -/
def srvReject : NegotiationServer := fun _ _ _ =>
  .reply { isClientCompatible := false, error := false, message := "",
           welcomeMessage := "" } ""

/-- A server that rejects the credentials of the 3.6.2 attempt (compatible
client, error flag set) and answers every other attempt as incompatible. -/
def srvCred : NegotiationServer := fun _ _ c =>
  if c.clientCommit == "31716aa98a0d4bd3bd7c5488dfc795a82dfee80d" then
    .reply { isClientCompatible := true, error := true,
             message := "invalid credentials", welcomeMessage := "" } ""
  else
    .reply { isClientCompatible := false, error := false, message := "",
             welcomeMessage := "" } ""

/-- A server that accepts at once and sends the replacement artifact
`"SC"` in its `Set-Cookie` header. -/
def srvAccept : NegotiationServer := fun _ _ _ =>
  .reply { isClientCompatible := true, error := false, message := "",
           welcomeMessage := "Welcome" } "SC"

/-- A server that accepts at once but sends a `Set-Cookie` value that is
not valid artifact JSON (`dec0 "BAD" = none`). -/
def srvAcceptBad : NegotiationServer := fun _ _ _ =>
  .reply { isClientCompatible := true, error := false, message := "",
           welcomeMessage := "Welcome" } "BAD"

/-- A trivial executor for exercising the interactive loop. -/
def exec0 : String → Except String Unit := fun _ => .ok ()

/-- The version table with its first two entries exchanged: a legal Go map
iteration order of `versionCommits` that differs from the literal's
textual order. -/
def swappedOrder : List (String × String) :=
  ("3.6.1", "b77b8fc6c2ceadd457571fc0a6ce1fb243e5f31c") ::
  ("3.6.2", "31716aa98a0d4bd3bd7c5488dfc795a82dfee80d") ::
  versionCommits.drop 2

/-! Section: helper lemmas about the read loop. -/

/-- The read loop stops at the first read result that carries an error:
everything after it is never read. -/
theorem runReadLoop_stops_at_error (decode : String → Option GSQLCookie) :
    ∀ (pre : List ReadRes) (k : GSQLCookie) (d e : String) (post : List ReadRes),
      runReadLoop decode k (pre ++ ReadRes.mk d (some e) :: post) =
        runReadLoop decode k (pre ++ [ReadRes.mk d (some e)]) := by
  intro pre
  induction pre with
  | nil => intro k d e post; simp [runReadLoop]
  | cons r rest ih =>
    intro k d e post
    simp only [List.cons_append, runReadLoop]
    cases r.err with
    | some e₀ => rfl
    | none => simp only [List.append_eq, ih]

/-- Splitting the read loop at an error-free prefix. -/
theorem runReadLoop_append (decode : String → Option GSQLCookie) :
    ∀ (xs : List ReadRes), (∀ r ∈ xs, r.err = none) →
      ∀ (k : GSQLCookie) (ys : List ReadRes),
        runReadLoop decode k (xs ++ ys) =
          ((runReadLoop decode (runReadLoop decode k xs).1 ys).1,
           (runReadLoop decode k xs).2 ++ (runReadLoop decode (runReadLoop decode k xs).1 ys).2) := by
  intro xs
  induction xs with
  | nil => intro _ k ys; simp [runReadLoop]
  | cons r rest ih =>
    intro h k ys
    have hr : r.err = none := h r (List.mem_cons_self r rest)
    have hrest : ∀ x ∈ rest, x.err = none := fun x hx => h x (List.mem_cons_of_mem r hx)
    simp only [List.cons_append, runReadLoop, hr, List.append_eq]
    rw [ih hrest]
    simp [String.append_assoc]

/-- A cookie-control chunk whose payload decodes replaces the cookie with
the decoded artifact carrying re-asserted provenance flags, and prints
nothing. -/
theorem processChunk_cookie_update (decode : String → Option GSQLCookie)
    (cook : GSQLCookie) (data : String) (c : GSQLCookie)
    (hsep : containsSubstr data gsqlSeparator = true)
    (hck : containsSubstr data gsqlCookies = true)
    (hlen : (splitGo data "__,").length > 1)
    (hdec : decode (splitGo data "__,")[1]! = some c) :
    processChunk decode cook data = (reassertFlags c, "") := by
  simp [processChunk, hsep, hck, hlen, hdec, reassertFlags]

/-! Section: claim C4. -/

/-- C4: confirmed.  When the response body ends with a chunk containing
the control separator, the cookie sub-marker and a decodable artifact
payload (preceded by any error-free chunks), the session's cookie
afterwards has `fromGsqlClient = true` and `fromGsqlServer = true`
— whatever the payload's own flag values were — the control chunk
contributes nothing to the displayed output, and the call succeeds. -/
theorem C4_control_chunk_reasserts_flags_and_is_hidden
    (decode : String → Option GSQLCookie) (s : GSQLSession) (cmd data : String)
    (c : GSQLCookie) (pre : List ReadRes)
    (hpre : ∀ r ∈ pre, r.err = none)
    (hsep : containsSubstr data gsqlSeparator = true)
    (hck : containsSubstr data gsqlCookies = true)
    (hlen : (splitGo data "__,").length > 1)
    (hdec : decode (splitGo data "__,")[1]! = some c) :
    (executeCommand decode (.ok (pre ++ [ReadRes.mk data none])) s cmd).1.cookie.fromGsqlClient = true ∧
    (executeCommand decode (.ok (pre ++ [ReadRes.mk data none])) s cmd).1.cookie.fromGsqlServer = true ∧
    (executeCommand decode (.ok (pre ++ [ReadRes.mk data none])) s cmd).2.1 =
      (runReadLoop decode s.cookie pre).2 ∧
    (executeCommand decode (.ok (pre ++ [ReadRes.mk data none])) s cmd).2.2 = .ok () := by
  have hne : (data == "") = false := by
    rcases eq_or_ne data "" with h | h
    · subst h; exact absurd hsep (by decide)
    · exact beq_eq_false_iff_ne.mpr h
  have key := runReadLoop_append decode pre hpre s.cookie [ReadRes.mk data none]
  have hstep : runReadLoop decode (runReadLoop decode s.cookie pre).1 [ReadRes.mk data none]
      = (reassertFlags c, "") := by
    simp [runReadLoop, hne,
          processChunk_cookie_update decode (runReadLoop decode s.cookie pre).1 data c hsep hck hlen hdec]
  simp [executeCommand, key, hstep, reassertFlags]

/-- Witness for C4: a body of an ordinary chunk followed by the concrete
control chunk whose payload decodes to `cookieX` (an artifact with all
provenance flags opposite to the forced values). -/
theorem C4_control_chunk_witness :
    (executeCommand dec0
        (.ok [ReadRes.mk "hi" none, ReadRes.mk "__GSQL__COOKIES__,P" none])
        sess0 "ls").1.cookie.fromGsqlClient = true ∧
    (executeCommand dec0
        (.ok [ReadRes.mk "hi" none, ReadRes.mk "__GSQL__COOKIES__,P" none])
        sess0 "ls").1.cookie.fromGsqlServer = true ∧
    (executeCommand dec0
        (.ok [ReadRes.mk "hi" none, ReadRes.mk "__GSQL__COOKIES__,P" none])
        sess0 "ls").2.1 = (runReadLoop dec0 sess0.cookie [ReadRes.mk "hi" none]).2 ∧
    (executeCommand dec0
        (.ok [ReadRes.mk "hi" none, ReadRes.mk "__GSQL__COOKIES__,P" none])
        sess0 "ls").2.2 = .ok () :=
  C4_control_chunk_reasserts_flags_and_is_hidden dec0 sess0 "ls"
    "__GSQL__COOKIES__,P" cookieX [ReadRes.mk "hi" none]
    (by decide) (by decide) (by decide) (by decide) (by decide)

/-! Section: claim C3. -/

/-- C3 (amended): only the Executor re-asserts the client's provenance
flags after decoding a server-supplied Cookie Artifact; the Negotiator's
`Set-Cookie` handling replaces the session artifact verbatim, with no
post-processing step, so the two acceptance paths are not identical. -/
theorem C3_reassert_only_in_executor
    (decode : String → Option GSQLCookie) (server : NegotiationServer)
    (s : GSQLSession) (v sc : String) (r : LoginResp)
    (c cook : GSQLCookie) (data : String)
    (hreply : server s.user s.password s.cookie = .reply r sc)
    (hcompat : r.isClientCompatible = true)
    (herr : r.error = false)
    (hsc : sc ≠ "")
    (hdec : decode sc = some c)
    (hsep : containsSubstr data gsqlSeparator = true)
    (hck : containsSubstr data gsqlCookies = true)
    (hlen : (splitGo data "__,").length > 1)
    (hdec2 : decode (splitGo data "__,")[1]! = some c) :
    (attemptLogin decode server s v).1.cookie = c ∧
    (processChunk decode cook data).1 = reassertFlags c := by
  constructor
  · simp [attemptLogin, hreply, hcompat, herr, beq_eq_false_iff_ne.mpr hsc, hdec]
  · simp [processChunk_cookie_update decode cook data c hsep hck hlen hdec2]

/-- Witness for C3 (amended): `srvAccept` sends the artifact `"SC"`, which
decodes to `cookieX`; the negotiator stores `cookieX` verbatim while the
executor would store `reassertFlags cookieX`. -/
theorem C3_reassert_only_in_executor_witness :
    (attemptLogin dec0 srvAccept sess0 "3.6.2").1.cookie = cookieX ∧
    (processChunk dec0 cookieOrig "__GSQL__COOKIES__,P").1 = reassertFlags cookieX :=
  C3_reassert_only_in_executor dec0 srvAccept sess0 "3.6.2" "SC"
    { isClientCompatible := true, error := false, message := "", welcomeMessage := "Welcome" }
    cookieX cookieOrig "__GSQL__COOKIES__,P"
    rfl rfl rfl (by decide) (by decide) (by decide) (by decide) (by decide) (by decide)

/-- C3 counterexample: for the same decoded artifact `cookieX`
(`fromGsqlClient = false`, `gShellTest = false`), the Negotiator's
accepted `Set-Cookie` leaves the flags as received while the Executor's
control chunk forces them — the claimed identical post-processing step
does not exist in the Negotiator. -/
theorem C3_counterexample :
    (attemptLogin dec0 srvAccept sess0 "3.6.2").1.cookie.fromGsqlClient = false ∧
    (attemptLogin dec0 srvAccept sess0 "3.6.2").1.cookie.gShellTest = false ∧
    (processChunk dec0 cookieOrig "__GSQL__COOKIES__,P").1.fromGsqlClient = true ∧
    (processChunk dec0 cookieOrig "__GSQL__COOKIES__,P").1.gShellTest = true ∧
    (attemptLogin dec0 srvAccept sess0 "3.6.2").1.cookie ≠
      (processChunk dec0 cookieOrig "__GSQL__COOKIES__,P").1 := by
  refine ⟨rfl, rfl, rfl, rfl, by decide⟩

/-! Section: claim C10. -/

/-- C10: confirmed.  A malformed server-supplied artifact never touches
the session cookie: the Negotiator ignores a `Set-Cookie` value that does
not decode (and still succeeds), and the Executor ignores a cookie-marker
chunk whose payload does not decode, or that has no `"__,"`-delimited
payload at all. -/
theorem C10_malformed_payload_keeps_cookie
    (decode : String → Option GSQLCookie) (server : NegotiationServer)
    (s : GSQLSession) (v sc : String) (r : LoginResp)
    (cook : GSQLCookie) (data : String) :
    (server s.user s.password s.cookie = .reply r sc →
      r.isClientCompatible = true → r.error = false → decode sc = none →
      (attemptLogin decode server s v).1.cookie = s.cookie ∧
      (attemptLogin decode server s v).2.2 = .ok ()) ∧
    (containsSubstr data gsqlSeparator = true →
      containsSubstr data gsqlCookies = true →
      (splitGo data "__,").length > 1 →
      decode (splitGo data "__,")[1]! = none →
      processChunk decode cook data = (cook, "")) ∧
    (containsSubstr data gsqlSeparator = true →
      containsSubstr data gsqlCookies = true →
      ¬ (splitGo data "__,").length > 1 →
      processChunk decode cook data = (cook, "")) := by
  refine ⟨?_, ?_, ?_⟩
  · intro hreply hcompat herr hdec
    cases hsc : sc == "" <;>
      simp [attemptLogin, hreply, hcompat, herr, hsc, hdec]
  · intro hsep hck hlen hdec
    simp [processChunk, hsep, hck, hlen, hdec]
  · intro hsep hck hlen
    simp [processChunk, hsep, hck, hlen]

/-- Witness for C10: `srvAcceptBad` sends the undecodable `Set-Cookie`
value `"BAD"`; `"__GSQL__COOKIES__,QQQ"` carries the undecodable payload
`"QQQ"`; `"__GSQL__COOKIES__"` has no `"__,"` payload.  In all three cases
the old cookie stays in force. -/
theorem C10_malformed_payload_witness :
    ((attemptLogin dec0 srvAcceptBad sess0 "3.6.2").1.cookie = sess0.cookie ∧
     (attemptLogin dec0 srvAcceptBad sess0 "3.6.2").2.2 = .ok ()) ∧
    processChunk dec0 cookieOrig "__GSQL__COOKIES__,QQQ" = (cookieOrig, "") ∧
    processChunk dec0 cookieOrig "__GSQL__COOKIES__" = (cookieOrig, "") := by
  refine ⟨?_, ?_, ?_⟩
  · exact (C10_malformed_payload_keeps_cookie dec0 srvAcceptBad sess0 "3.6.2" "BAD"
      { isClientCompatible := true, error := false, message := "", welcomeMessage := "Welcome" }
      cookieOrig "x").1 rfl rfl rfl (by decide)
  · exact (C10_malformed_payload_keeps_cookie dec0 srvAcceptBad sess0 "3.6.2" "BAD"
      { isClientCompatible := true, error := false, message := "", welcomeMessage := "Welcome" }
      cookieOrig "__GSQL__COOKIES__,QQQ").2.1 (by decide) (by decide) (by decide) (by decide)
  · exact (C10_malformed_payload_keeps_cookie dec0 srvAcceptBad sess0 "3.6.2" "BAD"
      { isClientCompatible := true, error := false, message := "", welcomeMessage := "Welcome" }
      cookieOrig "__GSQL__COOKIES__").2.2 (by decide) (by decide) (by decide)

/-! Section: claim C5. -/

/-- C5: the claim says a plain chunk is emitted as trimmed text with
exactly one trailing newline, so that the chunk `"done\n"` is displayed as
`"done"` followed by one newline.  The code instead prints the trimmed
text and then appends a newline only when the *untrimmed* chunk does not
already end in `"\n"` — so `"done\n"` is displayed as `"done"` with **no**
trailing newline, while the progress chunk is indeed passed through
verbatim.  This theorem evaluates the chunk renderer at the spec's own
example inputs and exhibits the divergence. -/
theorem C5_plain_chunk_rendered_without_newline :
    processChunk dec0 cookieOrig "done\n" = (cookieOrig, "done") ∧
    processChunk dec0 cookieOrig "[==  ] 40% (2/5)\n" =
      (cookieOrig, "[==  ] 40% (2/5)\n") ∧
    processChunk dec0 cookieOrig "done" = (cookieOrig, "done" ++ "\n") := by
  refine ⟨rfl, rfl, rfl⟩

/-! Section: claim C6. -/

/-- C6 (amended): when a read of the response body fails mid-stream, the
read loop aborts immediately — nothing after the failing read is
processed — but the error is *not* reported to the caller:
`executeCommand` still returns success (`nil`). -/
theorem C6_read_error_aborts_but_is_swallowed
    (decode : String → Option GSQLCookie) (s : GSQLSession)
    (cmd d e : String) (pre post : List ReadRes) :
    runReadLoop decode s.cookie (pre ++ ReadRes.mk d (some e) :: post) =
      runReadLoop decode s.cookie (pre ++ [ReadRes.mk d (some e)]) ∧
    (executeCommand decode (.ok (pre ++ ReadRes.mk d (some e) :: post)) s cmd).2.2 =
      .ok () := by
  exact ⟨runReadLoop_stops_at_error decode pre s.cookie d e post, rfl⟩

/-- C6 counterexample: a body whose second read fails with a transport
error.  The loop stops (the later chunk `"after\n"` is never displayed),
yet `executeCommand` returns `.ok ()`, not the failure the claim
requires. -/
theorem C6_counterexample :
    (executeCommand dec0
        (.ok [ReadRes.mk "partial" none, ReadRes.mk "" (some "connection reset"),
              ReadRes.mk "after\n" none]) sess0 "ls").2.2 = .ok () ∧
    (executeCommand dec0
        (.ok [ReadRes.mk "partial" none, ReadRes.mk "" (some "connection reset"),
              ReadRes.mk "after\n" none]) sess0 "ls").2.1 = "partial\n" := by
  refine ⟨rfl, rfl⟩

/-! Section: claim C8. -/

/-- C8 (amended): after trimming, exactly the inputs `"Quit"`, `"quit"`
and `"exit"` terminate the interactive loop without forwarding; other
casings are ordinary commands.  Empty or whitespace-only input re-prompts
without forwarding, and any other input is forwarded (trimmed) to the
executor with the loop continuing afterwards regardless of the executor's
result. -/
theorem C8_line_handling (exec : String → Except String Unit)
    (line : String) (rest : List String) :
    ((trimSpace line = "Quit" ∨ trimSpace line = "quit" ∨ trimSpace line = "exit") →
      handleLine line = .terminate ∧ runInteractive exec (line :: rest) = []) ∧
    (trimSpace line = "" →
      handleLine line = .reprompt ∧
      runInteractive exec (line :: rest) = runInteractive exec rest) ∧
    (trimSpace line ≠ "Quit" → trimSpace line ≠ "quit" → trimSpace line ≠ "exit" →
      trimSpace line ≠ "" →
      handleLine line = .forward (trimSpace line) ∧
      runInteractive exec (line :: rest) = trimSpace line :: runInteractive exec rest) := by
  refine ⟨?_, ?_, ?_⟩
  · intro h
    have hterm : handleLine line = .terminate := by
      rcases h with h | h | h <;> simp [handleLine, h]
    exact ⟨hterm, by simp [runInteractive, hterm]⟩
  · intro h
    have hrep : handleLine line = .reprompt := by simp [handleLine, h]
    exact ⟨hrep, by simp [runInteractive, hrep]⟩
  · intro h1 h2 h3 h4
    have hfwd : handleLine line = .forward (trimSpace line) := by
      simp [handleLine, h1, h2, h3, h4]
    exact ⟨hfwd, by simp [runInteractive, hfwd]⟩

/-- Witness for C8: concrete lines exercising all three branches of
`C8_line_handling`. -/
theorem C8_line_handling_witness :
    (handleLine "  quit " = .terminate ∧ runInteractive exec0 ["  quit ", "ls"] = []) ∧
    (handleLine " " = .reprompt ∧
      runInteractive exec0 [" ", "QUIT"] = runInteractive exec0 ["QUIT"]) ∧
    (handleLine " ls " = .forward "ls" ∧
      runInteractive exec0 [" ls "] = "ls" :: runInteractive exec0 []) := by
  refine ⟨(C8_line_handling exec0 "  quit " ["ls"]).1 (Or.inr (Or.inl rfl)),
          (C8_line_handling exec0 " " ["QUIT"]).2.1 rfl,
          (C8_line_handling exec0 " ls " []).2.2 (by decide) (by decide) (by decide) (by decide)⟩

/-- C8 counterexample: the claim includes `"QUIT"` (any letter case) among
the terminal commands, but the code compares against the three exact
strings only: `"QUIT"` is forwarded to the executor as an ordinary
command and the loop keeps running. -/
theorem C8_counterexample :
    handleLine "QUIT" = .forward "QUIT" ∧
    runInteractive exec0 ["QUIT"] = ["QUIT"] := by
  refine ⟨rfl, rfl⟩

/-! Section: helper lemmas about the negotiation loop. -/

/-- A negotiation attempt whose reply is not accepted leaves the session
untouched and returns some error. -/
theorem attemptLogin_rejected (decode : String → Option GSQLCookie)
    (server : NegotiationServer) (s : GSQLSession) (v : String)
    (h : replyAccepts s.user (server s.user s.password s.cookie) = false) :
    (attemptLogin decode server s v).1 = s ∧
    ∃ e, (attemptLogin decode server s v).2.2 = .error e := by
  unfold attemptLogin
  cases hr : server s.user s.password s.cookie with
  | failBefore e => exact ⟨rfl, e, rfl⟩
  | reply r sc =>
    rw [hr] at h
    simp only [replyAccepts] at h
    cases hc : r.isClientCompatible with
    | false => simp [hc]
    | true =>
      rw [hc] at h
      simp only [Bool.true_and, Bool.or_eq_false_iff, Bool.not_eq_false'] at h
      simp [hc, h.1, h.2]

/-- Running `login` against a server that accepts no request: every entry
of the iteration order is attempted in order, the session keeps everything
but its cookie — which ends as the seed for the order's last entry — and
the result is the generic failure. -/
theorem login_rejectAll (decode : String → Option GSQLCookie)
    (server : NegotiationServer) :
    ∀ (order : List (String × String)) (s : GSQLSession),
      (∀ c, replyAccepts s.user (server s.user s.password c) = false) →
      login decode server order s =
        ({ s with cookie := (order.map fun p => seedCookie p.2).getLastD s.cookie },
         order.map Prod.fst, .error "unable to establish compatible connection") := by
  intro order
  induction order with
  | nil => intro s h; simp [login]
  | cons p rest ih =>
    intro s h
    obtain ⟨v, cm⟩ := p
    obtain ⟨hs, e, he⟩ :=
      attemptLogin_rejected decode server { s with cookie := seedCookie cm } v
        (h (seedCookie cm))
    have htail := ih { s with cookie := seedCookie cm } h
    simp only [login, he, hs, htail, List.map_cons, List.getLastD_cons]

/-! Section: claim C2. -/

/-- C2 (amended): against a server that rejects every request, `login`
attempts each entry of the Go map's iteration order — an unspecified
permutation of the version table, not necessarily its textual order —
exactly once (so exactly `len(table)` attempts), and then fails with
"unable to establish compatible connection". -/
theorem C2_reject_all_attempts_whole_table
    (decode : String → Option GSQLCookie) (server : NegotiationServer)
    (order : List (String × String)) (s : GSQLSession)
    (hperm : order.Perm versionCommits)
    (hrej : ∀ c, replyAccepts s.user (server s.user s.password c) = false) :
    (login decode server order s).2.1 = order.map Prod.fst ∧
    (login decode server order s).2.1.length = versionCommits.length ∧
    (login decode server order s).2.2 =
      .error "unable to establish compatible connection" := by
  rw [login_rejectAll decode server order s hrej]
  exact ⟨rfl, by simp [hperm.length_eq], rfl⟩

/-- Witness for C2 (amended): the table's own order, against the concrete
all-rejecting server. -/
theorem C2_reject_all_witness :
    (login dec0 srvReject versionCommits sess0).2.1 = versionCommits.map Prod.fst ∧
    (login dec0 srvReject versionCommits sess0).2.1.length = versionCommits.length ∧
    (login dec0 srvReject versionCommits sess0).2.2 =
      .error "unable to establish compatible connection" :=
  C2_reject_all_attempts_whole_table dec0 srvReject versionCommits sess0
    (List.Perm.refl versionCommits) (fun _ => rfl)

/-- C2 counterexample: `swappedOrder` is a legal Go map iteration order
(a permutation of the table), yet the resulting attempt sequence is not
the table's defined order — the claim's "attempted in the table's defined
order" does not hold of the code, which ranges over an unordered map. -/
theorem C2_counterexample :
    swappedOrder.Perm versionCommits ∧
    (login dec0 srvReject swappedOrder sess0).2.1 = swappedOrder.map Prod.fst ∧
    (login dec0 srvReject swappedOrder sess0).2.1 ≠ versionCommits.map Prod.fst ∧
    (login dec0 srvReject swappedOrder sess0).2.2 =
      .error "unable to establish compatible connection" := by
  refine ⟨List.Perm.swap _ _ _, rfl, by decide, rfl⟩

/-! Section: claim C7. -/

/-- C7 (amended): when no version is accepted, `login` leaves the
session's version (and host, user, password) unchanged, but its cookie
*is* mutated on every attempt: after the loop it holds the seeded
handshake artifact of the last attempted entry, not its pre-login
value. -/
theorem C7_rejection_frame
    (decode : String → Option GSQLCookie) (server : NegotiationServer)
    (order : List (String × String)) (s : GSQLSession)
    (hrej : ∀ c, replyAccepts s.user (server s.user s.password c) = false) :
    (login decode server order s).1.version = s.version ∧
    (login decode server order s).1.host = s.host ∧
    (login decode server order s).1.user = s.user ∧
    (login decode server order s).1.password = s.password ∧
    (login decode server order s).1.cookie =
      (order.map fun p => seedCookie p.2).getLastD s.cookie := by
  rw [login_rejectAll decode server order s hrej]
  exact ⟨rfl, rfl, rfl, rfl, rfl⟩

/-- Witness for C7 (amended): the concrete all-rejecting run. -/
theorem C7_rejection_frame_witness :
    (login dec0 srvReject versionCommits sess0).1.version = sess0.version ∧
    (login dec0 srvReject versionCommits sess0).1.host = sess0.host ∧
    (login dec0 srvReject versionCommits sess0).1.user = sess0.user ∧
    (login dec0 srvReject versionCommits sess0).1.password = sess0.password ∧
    (login dec0 srvReject versionCommits sess0).1.cookie =
      (versionCommits.map fun p => seedCookie p.2).getLastD sess0.cookie :=
  C7_rejection_frame dec0 srvReject versionCommits sess0 (fun _ => rfl)

/-- C7 counterexample: after a fully rejected negotiation the session's
cookie is the seed for the last attempted entry (commit of version 3.0.0),
not the value it held before `login` was called — so "version and cookie
are mutated only on acceptance" fails for the cookie. -/
theorem C7_counterexample :
    (login dec0 srvReject versionCommits sess0).2.2 =
      .error "unable to establish compatible connection" ∧
    (login dec0 srvReject versionCommits sess0).1.cookie =
      seedCookie "c90ec746a7e77ef5b108554be2133dfd1e1ab1b2" ∧
    (login dec0 srvReject versionCommits sess0).1.cookie ≠ sess0.cookie := by
  refine ⟨rfl, rfl, by decide⟩

/-! Section: claim C1. -/

/-- C1 (amended): a compatible reply with the error flag set and a
non-internal user makes that single `attemptLogin` fail immediately with
the server's message, but `login` does *not* treat it as terminal: the
error is discarded and every remaining entry of the iteration order is
still attempted, exactly as for a version-negotiation failure. -/
theorem C1_credential_rejection_not_terminal
    (decode : String → Option GSQLCookie) (server : NegotiationServer)
    (s : GSQLSession) (v cm sc : String) (r : LoginResp)
    (rest : List (String × String))
    (hreply : server s.user s.password (seedCookie cm) = .reply r sc)
    (hcompat : r.isClientCompatible = true)
    (herr : r.error = true)
    (huser : s.user ≠ "__GSQL__secret") :
    attemptLogin decode server { s with cookie := seedCookie cm } v =
      ({ s with cookie := seedCookie cm }, "", .error r.message) ∧
    login decode server ((v, cm) :: rest) s =
      ((login decode server rest { s with cookie := seedCookie cm }).1,
       v :: (login decode server rest { s with cookie := seedCookie cm }).2.1,
       (login decode server rest { s with cookie := seedCookie cm }).2.2) := by
  have hatt : attemptLogin decode server { s with cookie := seedCookie cm } v =
      ({ s with cookie := seedCookie cm }, "", .error r.message) := by
    simp [attemptLogin, hreply, hcompat, herr, beq_eq_false_iff_ne.mpr huser]
  exact ⟨hatt, by simp only [login, hatt]⟩

/-- Witness for C1 (amended): the concrete credential-rejecting server
`srvCred`, which accepts the 3.6.2 client fingerprint but rejects the
credentials. -/
theorem C1_credential_rejection_witness :
    attemptLogin dec0 srvCred
        { sess0 with cookie := seedCookie "31716aa98a0d4bd3bd7c5488dfc795a82dfee80d" }
        "3.6.2" =
      ({ sess0 with cookie := seedCookie "31716aa98a0d4bd3bd7c5488dfc795a82dfee80d" },
       "", .error "invalid credentials") ∧
    login dec0 srvCred
        (("3.6.2", "31716aa98a0d4bd3bd7c5488dfc795a82dfee80d") :: versionCommits.tail)
        sess0 =
      ((login dec0 srvCred versionCommits.tail
          { sess0 with cookie := seedCookie "31716aa98a0d4bd3bd7c5488dfc795a82dfee80d" }).1,
       "3.6.2" :: (login dec0 srvCred versionCommits.tail
          { sess0 with cookie := seedCookie "31716aa98a0d4bd3bd7c5488dfc795a82dfee80d" }).2.1,
       (login dec0 srvCred versionCommits.tail
          { sess0 with cookie := seedCookie "31716aa98a0d4bd3bd7c5488dfc795a82dfee80d" }).2.2) :=
  C1_credential_rejection_not_terminal dec0 srvCred sess0 "3.6.2"
    "31716aa98a0d4bd3bd7c5488dfc795a82dfee80d" ""
    { isClientCompatible := true, error := true,
      message := "invalid credentials", welcomeMessage := "" }
    versionCommits.tail (by decide) rfl rfl (by decide)

/-- C1 counterexample: with `srvCred` (compatible reply, error flag set,
message "invalid credentials" for the first table entry; incompatible for
all others) and the non-internal user `"u"`, the full negotiation run
attempts all 17 entries after that response and fails with the generic
message instead of the server's — refuting "fails immediately with the
server's message and no further version table entries are attempted". -/
theorem C1_counterexample :
    srvCred sess0.user sess0.password
        (seedCookie "31716aa98a0d4bd3bd7c5488dfc795a82dfee80d") =
      .reply { isClientCompatible := true, error := true,
               message := "invalid credentials", welcomeMessage := "" } "" ∧
    sess0.user ≠ "__GSQL__secret" ∧
    (login dec0 srvCred versionCommits sess0).2.1 = versionCommits.map Prod.fst ∧
    (login dec0 srvCred versionCommits sess0).2.1.length = 17 ∧
    (login dec0 srvCred versionCommits sess0).2.2 =
      .error "unable to establish compatible connection" := by
  refine ⟨rfl, by decide, rfl, rfl, rfl⟩

/-! Section: claim C9. -/

/-- C9: confirmed.  Marshalling a Cookie Artifact to a JSON object and
unmarshalling it back restores every field, and an empty affinity field is
omitted from the marshalled object (its key is absent) rather than being
emitted as an empty string. -/
theorem C9_cookie_json_roundtrip (c : GSQLCookie) :
    unmarshalGSQLCookie (marshalGSQLCookie c) = c ∧
    (c.applicationGatewayAffinity = "" →
      (marshalGSQLCookie c).lookup "ApplicationGatewayAffinity" = none) ∧
    (c.applicationGatewayAffinityCORS = "" →
      (marshalGSQLCookie c).lookup "ApplicationGatewayAffinityCORS" = none) := by
  obtain ⟨cc, f1, f2, f3, f4, a1, a2⟩ := c
  refine ⟨?_, ?_, ?_⟩
  · by_cases h1 : a1 = "" <;> by_cases h2 : a2 = "" <;>
      simp [marshalGSQLCookie, unmarshalGSQLCookie, lookupStr, lookupBool,
            List.lookup, h1, h2]
  · intro h1
    have h1' : a1 = "" := h1
    by_cases h2 : a2 = "" <;> simp [marshalGSQLCookie, List.lookup, h1', h2]
  · intro h2
    have h2' : a2 = "" := h2
    by_cases h1 : a1 = "" <;> simp [marshalGSQLCookie, List.lookup, h1, h2']

/-- Witness for C9: the concrete artifact `cookieOrig`, whose affinity
fields are empty and therefore absent from its marshalled object. -/
theorem C9_cookie_json_roundtrip_witness :
    unmarshalGSQLCookie (marshalGSQLCookie cookieOrig) = cookieOrig ∧
    (marshalGSQLCookie cookieOrig).lookup "ApplicationGatewayAffinity" = none ∧
    (marshalGSQLCookie cookieOrig).lookup "ApplicationGatewayAffinityCORS" = none := by
  obtain ⟨h1, h2, h3⟩ := C9_cookie_json_roundtrip cookieOrig
  exact ⟨h1, h2 rfl, h3 rfl⟩

end TgCli
